import Mathlib

/-!
Shallow embedding of the precision sampling and timing core of
`src/main.cpp` (gVsense firmware), with theorems settling the frozen
claims about it.  Machine integers are modelled as `Nat` (the code's
`uint32_t` / `uint64_t` values stay far from their width in every run
considered here; where wraparound matters it is written explicitly),
C `float` / `double` values as `ℚ`, and fallible reads as `Option`.
-/

namespace GVsense

/-! ## Sequence / sample-index emission model (claim C1)

`generatePreciseSample` (main.cpp:1094-1159): on entry, if
`sample_index >= reference_update_interval` then `updateTimingReference`
(main.cpp:929-953) resets `sample_index` to 0; the sample is then emitted
carrying the current 16-bit `sequence`; afterwards
`sequence = (sequence + 1) % 65536` and `sample_index++`. -/

/-- `reference_update_interval`, set once in `setupAdvancedTiming`
(main.cpp:404) and never written again. -/
def referenceUpdateInterval : ℕ := 1000000

/-- The part of the firmware state that decides which `(sequence,
sample_index)` pair each emission carries. -/
structure EmitState where
  sequence : ℕ
  sample_index : ℕ
  deriving DecidableEq, Repr

/-- One call of `generatePreciseSample` (main.cpp:1094-1159), restricted to
the sequence/index bookkeeping: the rebase check of main.cpp:1098-1100
(which zeroes `sample_index` via `updateTimingReference`, main.cpp:943),
then the post-emission increments of main.cpp:1151-1153. -/
def emitStep (s : EmitState) : EmitState :=
  let idx := if referenceUpdateInterval ≤ s.sample_index then 0 else s.sample_index
  { sequence := (s.sequence + 1) % 65536, sample_index := idx + 1 }

/-- The `(seq, sample_index)` pair actually carried by the emission made
from state `s`: the rebase (if due) runs before the output line is
printed (main.cpp:1098-1100 before main.cpp:1148). -/
def emittedPair (s : EmitState) : ℕ × ℕ :=
  (s.sequence, if referenceUpdateInterval ≤ s.sample_index then 0 else s.sample_index)

/-- State entering the `n`-th emission of a stream.  `START_STREAM` /
`establishSamplingTiming` set `sequence = 0` (main.cpp:1374) and
`sample_index = 0` (main.cpp:916). -/
def stateAt (n : ℕ) : EmitState := emitStep^[n] ⟨0, 0⟩

/-! ## PPS calibration update (claim C2)

`processPPS` (main.cpp:713-768): with the acceptance gate
`pps_count > 1 && calibration_valid && !clock_reset_detected`, compute
`error_ppm`; if `|error_ppm| < 1000`, either set the calibration directly
(`pps_count < 10`) or smooth 0.9/0.1 and clamp via
`clampOscillatorCalibration` (main.cpp:1673-1686). -/

/-- `clampOscillatorCalibration` (main.cpp:1673-1686): clamp the stored
calibration to `[-200, 200]`. -/
def clampOscillatorCalibration (ppm : ℚ) : ℚ :=
  if 200 < ppm then 200
  else if ppm < -200 then -200
  else ppm

/-- The calibration update performed by one `processPPS` call
(main.cpp:713-768) as a function of the pre-call `pps_count` (already
incremented at main.cpp:670), the stored ppm, the measured `error_ppm`,
and the gating booleans. -/
def processPPScalibration (pps_count : ℕ) (ppm error_ppm : ℚ)
    (calibration_valid clock_reset_detected : Bool) : ℚ :=
  if 1 < pps_count ∧ calibration_valid = true ∧ clock_reset_detected = false then
    if |error_ppm| < 1000 then
      if pps_count < 10 then
        -error_ppm
      else
        clampOscillatorCalibration (9/10 * ppm + 1/10 * (-error_ppm))
    else ppm
  else ppm

/-! ## Virtual clock (claim C3)

`getVirtualMicros` (main.cpp:585-603): read the raw 32-bit counter; if it
went backward by more than 10^9 µs, count a late wraparound and add 2^32
to `virtual_micros_offset`; update `last_micros`; return
`virtual_micros_offset + current_micros`. -/

/-- The virtual-clock fields read and written by `getVirtualMicros`. -/
structure VirtualClock where
  last_micros : ℕ
  virtual_micros_offset : ℕ
  micros_wraparound_count : ℕ
  deriving DecidableEq, Repr

/-- One call of `getVirtualMicros` (main.cpp:585-603) given the raw
`micros()` reading: returns the virtual time and the updated state. -/
def getVirtualMicros (vc : VirtualClock) (raw : ℕ) : ℕ × VirtualClock :=
  let vc' :=
    if raw < vc.last_micros ∧ 1000000000 < vc.last_micros - raw then
      { vc with
        micros_wraparound_count := vc.micros_wraparound_count + 1,
        virtual_micros_offset := vc.virtual_micros_offset + 4294967296 }
    else vc
  (vc'.virtual_micros_offset + raw, { vc' with last_micros := raw })

/-! ## Timing-quality state machine (claim C5)

`updateTimingSource` (main.cpp:456-526), the pure classification part:
a function of `pps_valid`, `calibration_valid`,
`age = current_millis - last_pps_time` and `recent_reset`. -/

/-- The four timing sources of `AdvancedTiming::TimingSource`
(main.cpp:77-82). -/
inductive TimingSource where
  | ppsActive
  | ppsHoldover
  | internalCal
  | internalRaw
  deriving DecidableEq, Repr

/-- The classification cascade of `updateTimingSource`
(main.cpp:478-501), returning the timing source and the accuracy in µs. -/
def updateTimingSource (pps_valid calibration_valid : Bool) (age : ℕ)
    (recent_reset : Bool) : TimingSource × ℚ :=
  if pps_valid = true ∧ age < 1500 ∧ recent_reset = false then
    (TimingSource.ppsActive, 1)
  else if pps_valid = true ∧ age < 60000 ∧ recent_reset = false then
    (TimingSource.ppsHoldover, 1 + (age / 1000 : ℚ) * (1/10))
  else if calibration_valid = true ∧ age < 300000 ∧ recent_reset = false then
    (TimingSource.internalCal, 10 + (age / 1000 : ℚ) * (3/10))
  else
    (TimingSource.internalRaw, if recent_reset = true then 2000 else 1000)

/-- Modelled from the spec: the timing-quality table of §4.D, written
directly from the spec's four rows, to be compared with the function
translated from the code. -/
def specTimingQualityTable (pps_valid cal_valid : Bool) (age : ℕ)
    (recent_reset : Bool) : TimingSource × ℚ :=
  if pps_valid = true ∧ age < 1500 ∧ recent_reset = false then
    (TimingSource.ppsActive, 1)
  else if pps_valid = true ∧ age < 60000 ∧ recent_reset = false then
    (TimingSource.ppsHoldover, 1 + (age / 1000 : ℚ) * (1/10))
  else if cal_valid = true ∧ age < 300000 ∧ recent_reset = false then
    (TimingSource.internalCal, 10 + (age / 1000 : ℚ) * (3/10))
  else
    (TimingSource.internalRaw, if recent_reset = true then 2000 else 1000)

/-! ## Calibration persistence (claim C8)

`saveOscillatorCalibration` (main.cpp:1753-1761) and
`loadOscillatorCalibration` (main.cpp:1763-1781) over the two EEPROM
cells at offsets 0 and 4. -/

/-- The two EEPROM cells used by the calibration store: the magic word at
offset 0 and the float ppm at offset 4. -/
structure EepromCal where
  magic : ℕ
  ppm : ℚ
  deriving DecidableEq, Repr

/-- `EEPROM_CAL_MAGIC` (main.cpp:1751). -/
def eepromCalMagic : ℕ := 0x12345678

/-- `saveOscillatorCalibration` (main.cpp:1753-1761): write the magic and
the stored ppm. -/
def saveOscillatorCalibration (ppm : ℚ) (_e : EepromCal) : EepromCal :=
  { magic := eepromCalMagic, ppm := ppm }

/-- Result of `loadOscillatorCalibration` on the timing state: the
(possibly updated) stored ppm and `calibration_valid` flag. -/
structure CalLoadResult where
  oscillator_calibration_ppm : ℚ
  calibration_valid : Bool
  deriving DecidableEq, Repr

/-- `loadOscillatorCalibration` (main.cpp:1763-1781): accept the stored
value only when the magic matches and `|stored_ppm| <= 200`; otherwise
leave the calibration state unchanged. -/
def loadOscillatorCalibration (e : EepromCal) (prev : CalLoadResult) :
    CalLoadResult :=
  if e.magic = eepromCalMagic ∧ |e.ppm| ≤ 200 then
    { oscillator_calibration_ppm := e.ppm, calibration_valid := true }
  else prev

/-! ## Sequence validation (claim C10)

`validateAndCorrectSequence` (main.cpp:1039-1092).  The C++ function takes
`seq` by reference but never assigns to it; the model returns the
(unchanged) sequence value explicitly so the claim is statable. -/

/-- The `SequenceValidator` global (main.cpp:57-63). -/
structure SequenceValidator where
  expected_sequence : ℕ
  sequence_gaps_detected : ℕ
  sequence_resets_detected : ℕ
  validation_enabled : Bool
  deriving DecidableEq, Repr

/-- The diagnostic line (if any) printed by one
`validateAndCorrectSequence` call. -/
inductive SeqDiagnostic where
  | none
  | sequenceReset
  | sequenceGap
  deriving DecidableEq, Repr

/-- Result of `validateAndCorrectSequence`: the returned boolean, the
sequence value after the call (the reference is never written), the
updated validator state and the diagnostic line emitted. -/
structure SeqValidationResult where
  accepted : Bool
  seq : ℕ
  validator : SequenceValidator
  diagnostic : SeqDiagnostic
  deriving DecidableEq, Repr

/-- `validateAndCorrectSequence` (main.cpp:1039-1092), with `seq` a 16-bit
value (`< 65536`). -/
def validateAndCorrectSequence (v : SequenceValidator) (seq : ℕ) :
    SeqValidationResult :=
  if v.validation_enabled = false then
    ⟨true, seq, v, SeqDiagnostic.none⟩
  else if v.expected_sequence = 0 ∧ seq = 0 then
    ⟨true, seq, { v with expected_sequence := 1 }, SeqDiagnostic.none⟩
  else if seq = v.expected_sequence then
    ⟨true, seq, { v with expected_sequence := (v.expected_sequence + 1) % 65536 },
      SeqDiagnostic.none⟩
  else
    let gap_size :=
      if v.expected_sequence < seq then seq - v.expected_sequence
      else (65536 - v.expected_sequence) + seq
    if seq < v.expected_sequence ∧ 1000 < gap_size then
      ⟨true, seq,
        { v with
          sequence_resets_detected := v.sequence_resets_detected + 1,
          expected_sequence := (seq + 1) % 65536 },
        SeqDiagnostic.sequenceReset⟩
    else
      ⟨true, seq,
        { v with
          sequence_gaps_detected := v.sequence_gaps_detected + 1,
          expected_sequence := (seq + 1) % 65536 },
        SeqDiagnostic.sequenceGap⟩

/-! ## Fractional scheduler (claims C6, C9)

The streaming scheduler block of `loop` (main.cpp:316-367) and
`establishSamplingTiming` (main.cpp:903-927). -/

/-- A C cast of a floating value to an integer type: truncation toward
zero. -/
def cTrunc (q : ℚ) : ℤ := if 0 ≤ q then ⌊q⌋ else ⌈q⌉

/-- Rounding used by the phase planners: `(uint32_t)(x + 0.5)` for a
non-negative `x`. -/
def roundHalfUp (q : ℚ) : ℕ := (cTrunc (q + 1/2)).toNat

/-- The scheduler fields read and written by the streaming block of
`loop` (main.cpp:316-367). -/
structure Scheduler where
  next_sample_micros : ℕ
  phase_acc_us : ℚ
  phase_alignment_active : Bool
  per_sample_phase_adjust_us : ℚ
  phase_error_us : ℚ
  phase_adjust_samples_remaining : ℕ
  deriving DecidableEq, Repr

/-- One main-loop iteration of the streaming scheduler
(main.cpp:331-366) with `effective = effective_interval_us` (a double,
main.cpp:328-329) and `now = getVirtualMicros()` (main.cpp:332): returns
the updated scheduler state and the number of samples fired (the `uint64`
additions stay in range in every run considered, so they are modelled as
integer arithmetic).  `missed_slots` divides by the C cast
`(long long)effective_interval_us` (main.cpp:337-338), and `whole_us` is
the C cast of `step` (main.cpp:363). -/
def schedStep (effective : ℚ) (s : Scheduler) (now : ℕ) : Scheduler × ℕ :=
  if s.next_sample_micros ≤ now then
    let effT : ℕ := (cTrunc effective).toNat
    let missed : ℕ := (now - s.next_sample_micros) / effT
    let next1 : ℕ := s.next_sample_micros + missed * effT
    let apply_adj : Bool :=
      s.phase_alignment_active && decide (0 < s.phase_adjust_samples_remaining)
    let step : ℚ := effective + s.phase_acc_us +
      (if apply_adj = true then s.per_sample_phase_adjust_us else 0)
    let rem : ℕ :=
      if apply_adj = true then s.phase_adjust_samples_remaining - 1
      else s.phase_adjust_samples_remaining
    let finished : Bool := apply_adj && decide (rem = 0)
    let whole : ℤ := cTrunc step
    ({ next_sample_micros := ((next1 : ℤ) + whole).toNat,
       phase_acc_us := step - (whole : ℚ),
       phase_alignment_active := if finished = true then false else s.phase_alignment_active,
       per_sample_phase_adjust_us := if finished = true then 0 else s.per_sample_phase_adjust_us,
       phase_error_us := if finished = true then 0 else s.phase_error_us,
       phase_adjust_samples_remaining := rem }, 1)
  else (s, 0)

/-- The timing fields written by `establishSamplingTiming`
(main.cpp:903-927). -/
structure EstablishState where
  timing_base_micros : ℕ
  timing_base_virtual_micros : ℕ
  timing_established : Bool
  samples_generated : ℕ
  sample_index : ℕ
  next_sample_micros : ℕ
  last_reference_update_sample : ℕ
  phase_acc_us : ℚ
  deriving DecidableEq, Repr

/-- `establishSamplingTiming` (main.cpp:903-927) with
`now = getVirtualMicros()` and `interval = sample_interval_us`: snap the
base to the next interval boundary.  The function writes the fields of
main.cpp:912-918 and nothing else; in particular `phase_acc_us` is left
as it was. -/
def establishSamplingTiming (now interval : ℕ) (s : EstablishState) :
    EstablishState :=
  let offset_us : ℕ := now % interval
  let next_boundary_micros : ℕ := now + (interval - offset_us)
  { s with
    timing_base_micros := next_boundary_micros,
    timing_base_virtual_micros := next_boundary_micros,
    timing_established := true,
    samples_generated := 0,
    sample_index := 0,
    next_sample_micros := next_boundary_micros,
    last_reference_update_sample := 0 }

/-! ## Serial back-pressure (claim C7)

`checkSerialBufferOverflow` (main.cpp:955-981) and
`outputDataWithOverflowProtection` (main.cpp:983-1037). -/

/-- The `SerialBufferMonitor` global (main.cpp:42-51). -/
structure SerialBufferMonitor where
  buffer_overflows : ℕ
  last_overflow_time : ℕ
  samples_skipped_due_to_overflow : ℕ
  overflow_warning_sent : Bool
  oflow_message_count : ℕ
  last_oflow_message_time : ℕ
  oflow_report_interval_ms : ℕ
  deriving DecidableEq, Repr

/-- What one attempted emission put on the wire: the sample line, an
`OFLOW` line in its place, or nothing (sample dropped inside the OFLOW
rate limit). -/
inductive EmitOutcome where
  | sample
  | oflow
  | droppedSilent
  deriving DecidableEq, Repr

/-- `checkSerialBufferOverflow` (main.cpp:955-981) given
`tx = Serial1.availableForWrite()` and `now = millis()`: returns the
updated monitor and the overflow verdict.  (The one-shot `WARNING` line
it may print leaves `overflow_warning_sent = true` either way.) -/
def checkSerialBufferOverflow (m : SerialBufferMonitor) (tx now : ℕ) :
    SerialBufferMonitor × Bool :=
  if tx < 20 then
    ({ m with
       buffer_overflows := m.buffer_overflows + 1,
       last_overflow_time := now,
       overflow_warning_sent := true }, true)
  else if 50 < tx then
    ({ m with overflow_warning_sent := false }, false)
  else (m, false)

/-- `outputDataWithOverflowProtection` (main.cpp:983-1037), restricted to
the monitor state and the emission outcome (the formatted fields do not
feed back into any state). -/
def outputDataWithOverflowProtection (m : SerialBufferMonitor)
    (tx now : ℕ) : SerialBufferMonitor × EmitOutcome :=
  let c := checkSerialBufferOverflow m tx now
  if c.2 = true then
    let m2 := { c.1 with
      samples_skipped_due_to_overflow := c.1.samples_skipped_due_to_overflow + 1 }
    if m2.oflow_report_interval_ms ≤ now - m2.last_oflow_message_time then
      ({ m2 with
         oflow_message_count := m2.oflow_message_count + 1,
         last_oflow_message_time := now }, EmitOutcome.oflow)
    else (m2, EmitOutcome.droppedSilent)
  else (c.1, EmitOutcome.sample)

/-- A run of attempted emissions: each input is the pair
`(tx_available, millis)` observed by that call; the output pairs each
emission outcome with its `millis` time. -/
def runOutput (m : SerialBufferMonitor) :
    List (ℕ × ℕ) → List (EmitOutcome × ℕ)
  | [] => []
  | (tx, t) :: rest =>
    let r := outputDataWithOverflowProtection m tx t
    (r.2, t) :: runOutput r.1 rest

/-- The times of the `OFLOW` lines in a run's output. -/
def oflowTimes : List (EmitOutcome × ℕ) → List ℕ
  | [] => []
  | (EmitOutcome.oflow, t) :: rest => t :: oflowTimes rest
  | (EmitOutcome.sample, _) :: rest => oflowTimes rest
  | (EmitOutcome.droppedSilent, _) :: rest => oflowTimes rest

/-! ## PPS processing (claim C4)

`processPPS` (main.cpp:666-886), with the fields it reads and writes. -/

/-- The timing fields read or written by `processPPS`. -/
structure PpsState where
  pps_count : ℕ
  sync_on_pps : Bool
  pps_countdown : ℕ
  waiting_for_sync_start : Bool
  started_on_pps : Bool
  streaming : Bool
  timing_established : Bool
  timing_base_micros : ℕ
  next_sample_micros : ℕ
  sequence : ℕ
  session_header_sent : Bool
  clock_reset_detected : Bool
  reset_detection_time : ℕ
  pps_valid : Bool
  last_pps_time : ℕ
  calibration_valid : Bool
  oscillator_calibration_ppm : ℚ
  cal_base_micros : ℕ
  cal_base_millis : ℕ
  virtual_micros_offset : ℕ
  sample_interval_us : ℕ
  stream_rate : ℚ
  phase_nudge_applied : Bool
  phase_alignment_active : Bool
  phase_error_us : ℚ
  per_sample_phase_adjust_us : ℚ
  phase_adjust_samples_remaining : ℕ
  pps_phase_lock_enabled : Bool
  deriving DecidableEq, Repr

/-- The one-shot phase nudge block of `processPPS` (main.cpp:785-825).
`phase_mod` mirrors the C expression `((delta % imod) + imod) % imod`
(`%` is the truncating C remainder, `Int.tmod`). -/
def applyPhaseNudge (s : PpsState) (pps_micros : ℕ) : PpsState :=
  let pps_virtual : ℕ := s.virtual_micros_offset + pps_micros
  let interval : ℕ := s.sample_interval_us
  if 0 < interval then
    let delta : ℤ := (pps_virtual : ℤ) - (s.timing_base_micros : ℤ)
    let imod : ℤ := (interval : ℤ)
    let phase_mod : ℤ := ((delta.tmod imod) + imod).tmod imod
    let signed_phase : ℤ :=
      if phase_mod ≤ ((interval / 2 : ℕ) : ℤ) then phase_mod else phase_mod - imod
    if 20 < signed_phase ∨ signed_phase < -20 then
      let planned_samples : ℕ := 200
      let per0 : ℚ := (signed_phase : ℚ) / (planned_samples : ℚ)
      let per : ℚ := if 20 < per0 then 20 else if per0 < -20 then -20 else per0
      let samples_needed0 : ℕ :=
        roundHalfUp (|(signed_phase : ℚ)| / (if 0 < |per| then |per| else 1))
      let samples_needed : ℕ := if samples_needed0 = 0 then 1 else samples_needed0
      { s with
        phase_error_us := (signed_phase : ℚ),
        per_sample_phase_adjust_us := per,
        phase_adjust_samples_remaining := samples_needed,
        phase_alignment_active := true,
        phase_nudge_applied := true }
    else s
  else s

/-- The continuous PPS phase-lock block of `processPPS`
(main.cpp:828-862). -/
def applyPhaseLock (s : PpsState) (pps_micros : ℕ) : PpsState :=
  let pps_virtual : ℕ := s.virtual_micros_offset + pps_micros
  let interval : ℕ := s.sample_interval_us
  if 0 < interval then
    let delta : ℤ := (pps_virtual : ℤ) - (s.timing_base_micros : ℤ)
    let imod : ℤ := (interval : ℤ)
    let phase_mod : ℤ := ((delta.tmod imod) + imod).tmod imod
    let signed_phase : ℤ :=
      if phase_mod ≤ ((interval / 2 : ℕ) : ℤ) then phase_mod else phase_mod - imod
    if 5 < signed_phase ∨ signed_phase < -5 then
      let samples_per_second0 : ℕ := roundHalfUp s.stream_rate
      let samples_per_second : ℕ :=
        if samples_per_second0 = 0 then 1 else samples_per_second0
      let per0 : ℚ := (signed_phase : ℚ) / (samples_per_second : ℚ)
      let per : ℚ := if 20 < per0 then 20 else if per0 < -20 then -20 else per0
      let samples_needed0 : ℕ :=
        roundHalfUp (|(signed_phase : ℚ)| / (if 0 < |per| then |per| else 1))
      let samples_needed : ℕ := if samples_needed0 = 0 then 1 else samples_needed0
      { s with
        phase_error_us := (signed_phase : ℚ),
        per_sample_phase_adjust_us := per,
        phase_adjust_samples_remaining := samples_needed,
        phase_alignment_active := true }
    else s
  else s

/-- `processPPS` after the first countdown block: the reset-recovery gate
(main.cpp:695-699), the cadence validation (main.cpp:702-711), the
calibration update (main.cpp:714-769, via `processPPScalibration`), the
anchor updates (main.cpp:777-781), the two phase blocks
(main.cpp:785-862) and the second countdown block (main.cpp:865-880).
`actual_interval` is the `uint64` difference of main.cpp:716 (in range in
every run considered). -/
def processPPSrest (s : PpsState) (pps_micros current_millis : ℕ) : PpsState :=
  if s.clock_reset_detected = true ∧
      current_millis - s.reset_detection_time < 5000 then s
  else if s.pps_valid = true ∧
      (current_millis - s.last_pps_time < 900 ∨
        1100 < current_millis - s.last_pps_time) then s
  else
    let actual_interval : ℕ := pps_micros - s.cal_base_micros
    let error_ppm : ℚ := (actual_interval : ℚ) - 1000000
    let ppm' : ℚ := processPPScalibration s.pps_count
      s.oscillator_calibration_ppm error_ppm s.calibration_valid
      s.clock_reset_detected
    let s := { s with oscillator_calibration_ppm := ppm' }
    let s := { s with
      pps_valid := true,
      calibration_valid := true,
      cal_base_micros := pps_micros,
      cal_base_millis := current_millis,
      last_pps_time := current_millis }
    let s :=
      if s.streaming = true ∧ s.timing_established = true ∧
          s.started_on_pps = false ∧ s.phase_nudge_applied = false then
        applyPhaseNudge s pps_micros
      else s
    let s :=
      if s.streaming = true ∧ s.timing_established = true ∧
          s.pps_phase_lock_enabled = true then
        applyPhaseLock s pps_micros
      else s
    if s.sync_on_pps = true ∧ 0 < s.pps_countdown then
      if s.pps_countdown - 1 = 0 then
        { s with
          pps_countdown := 0,
          timing_base_micros := pps_micros,
          next_sample_micros := pps_micros,
          timing_established := true,
          waiting_for_sync_start := false,
          started_on_pps := true,
          sequence := 0,
          streaming := true,
          session_header_sent := true }
      else { s with pps_countdown := s.pps_countdown - 1 }
    else s

/-- `processPPS` (main.cpp:666-886) given the captured `pps_micros` and
`current_millis = millis()`: increment `pps_count` (main.cpp:670), then
the first (unconditional) countdown block (main.cpp:673-692), which on
reaching zero starts streaming at this edge and returns; otherwise the
rest of the handler. -/
def processPPS (s₀ : PpsState) (pps_micros current_millis : ℕ) : PpsState :=
  let s := { s₀ with pps_count := s₀.pps_count + 1 }
  if s.sync_on_pps = true ∧ 0 < s.pps_countdown then
    if s.pps_countdown - 1 = 0 then
      { s with
        pps_countdown := 0,
        timing_base_micros := pps_micros,
        next_sample_micros := pps_micros,
        timing_established := true,
        waiting_for_sync_start := false,
        sync_on_pps := false,
        started_on_pps := true,
        sequence := 0,
        streaming := true,
        session_header_sent := true,
        last_pps_time := current_millis }
    else processPPSrest { s with pps_countdown := s.pps_countdown - 1 }
      pps_micros current_millis
  else processPPSrest s pps_micros current_millis

/-- A concrete armed state: `START_STREAM_PPS 100,2` was accepted
(main.cpp:1394-1399: `sync_on_pps = true`, `pps_countdown = 2`,
`waiting_for_sync_start = true`), PPS is flowing with good cadence
(last edge at 4000 ms), calibration valid, no reset, and one `micros()`
wraparound has occurred (`virtual_micros_offset = 2^32`). -/
def armedTwoPps : PpsState where
  pps_count := 7
  sync_on_pps := true
  pps_countdown := 2
  waiting_for_sync_start := true
  started_on_pps := false
  streaming := false
  timing_established := false
  timing_base_micros := 0
  next_sample_micros := 0
  sequence := 0
  session_header_sent := false
  clock_reset_detected := false
  reset_detection_time := 0
  pps_valid := true
  last_pps_time := 4000
  calibration_valid := true
  oscillator_calibration_ppm := 0
  cal_base_micros := 4000500
  cal_base_millis := 4000
  virtual_micros_offset := 4294967296
  sample_interval_us := 10000
  stream_rate := 100
  phase_nudge_applied := false
  phase_alignment_active := false
  phase_error_us := 0
  per_sample_phase_adjust_us := 0
  phase_adjust_samples_remaining := 0
  pps_phase_lock_enabled := true

end GVsense

namespace GVsense

/-! ## Helper lemmas -/

/-- Closed form of the emission states before (and at) the first rebase:
as long as no prior emission has reached the rebase threshold, the state
entering emission `n` is `(n % 65536, n)`. -/
theorem stateAt_eq_of_le (n : ℕ) (h : n ≤ referenceUpdateInterval) :
    stateAt n = ⟨n % 65536, n⟩ := by
  induction n with
  | zero => rfl
  | succ k ih =>
    have hk : k ≤ referenceUpdateInterval := Nat.le_of_succ_le h
    have hklt : k < referenceUpdateInterval := Nat.lt_of_succ_le h
    have hstep : stateAt (k + 1) = emitStep (stateAt k) :=
      Function.iterate_succ_apply' emitStep k _
    rw [hstep, ih hk]
    simp only [emitStep]
    rw [if_neg (by omega)]
    have : (k % 65536 + 1) % 65536 = (k + 1) % 65536 := by
      conv_rhs => rw [← Nat.mod_add_mod]
    simp [this]

/-- `|clampOscillatorCalibration x| ≤ 200` for every input. -/
theorem abs_clampOscillatorCalibration_le (x : ℚ) :
    |clampOscillatorCalibration x| ≤ 200 := by
  unfold clampOscillatorCalibration
  split
  · norm_num
  · split
    · norm_num
    · rw [abs_le]; constructor <;> linarith [le_of_not_lt (by assumption : ¬ 200 < x),
        le_of_not_lt (by assumption : ¬ x < -200)]

/-! ## Claim theorems -/

/-- C10: sequence validation never suppresses or alters a sample: for
every validator state and sequence value, `validateAndCorrectSequence`
returns true and leaves the sequence value unchanged, so the sample is
still emitted. -/
theorem validateAndCorrectSequence_never_drops (v : SequenceValidator)
    (seq : ℕ) :
    (validateAndCorrectSequence v seq).accepted = true ∧
    (validateAndCorrectSequence v seq).seq = seq := by
  unfold validateAndCorrectSequence
  dsimp only
  repeat' split
  all_goals exact ⟨rfl, rfl⟩

/-- C8: calibration persistence round-trips: for every ppm value with
`|ppm| ≤ 200`, saving the calibration (magic word plus ppm) and then
loading it yields the same ppm value and marks the calibration valid. -/
theorem calibration_save_load_roundtrip (ppm : ℚ) (e : EepromCal)
    (prev : CalLoadResult) (h : |ppm| ≤ 200) :
    loadOscillatorCalibration (saveOscillatorCalibration ppm e) prev =
      ⟨ppm, true⟩ := by
  unfold loadOscillatorCalibration saveOscillatorCalibration
  rw [if_pos ⟨rfl, h⟩]

/-- Witness for C8 at the concrete value `ppm = 3/2`. -/
theorem calibration_save_load_roundtrip_witness :
    |(3/2 : ℚ)| ≤ 200 ∧
    loadOscillatorCalibration (saveOscillatorCalibration (3/2) ⟨0, 0⟩)
      ⟨0, false⟩ = ⟨3/2, true⟩ :=
  ⟨by rw [abs_of_nonneg] <;> norm_num,
   calibration_save_load_roundtrip (3/2) ⟨0, 0⟩ ⟨0, false⟩
     (by rw [abs_of_nonneg] <;> norm_num)⟩

/-- C5: the timing-quality state computed each main-loop tick is exactly
the function of `(pps_valid, cal_valid, age, recent_reset)` given by the
spec table, including the accuracy in each row. -/
theorem updateTimingSource_matches_spec_table (pps_valid cal_valid : Bool)
    (age : ℕ) (recent_reset : Bool) :
    updateTimingSource pps_valid cal_valid age recent_reset =
      specTimingQualityTable pps_valid cal_valid age recent_reset := rfl

/-- C2 counterexample: a PPS accepted while `pps_count = 5` (within the
first 10) with a measured error of 500 ppm stores `ppm = -500`, violating
`|ppm| ≤ 200`: the direct-measurement branch has no clamp. -/
theorem ppm_clamp_counterexample :
    processPPScalibration 5 0 500 true false = -500 ∧
    ¬ |(-500 : ℚ)| ≤ 200 := by
  constructor
  · unfold processPPScalibration
    norm_num
  · norm_num

/-- C2 amended: once `pps_count ≥ 10` every accepted PPS update is
smoothed and clamped, so the stored calibration satisfies `|ppm| ≤ 200`;
during the first 10 accepted PPS the calibration is set directly to
`-error_ppm` and is bounded only by the acceptance gate
`|error_ppm| < 1000`. -/
theorem ppm_clamp_amended (pps_count : ℕ) (ppm error_ppm : ℚ)
    (hacc : |error_ppm| < 1000) :
    (10 ≤ pps_count →
      |processPPScalibration pps_count ppm error_ppm true false| ≤ 200) ∧
    (1 < pps_count → pps_count < 10 →
      processPPScalibration pps_count ppm error_ppm true false = -error_ppm ∧
      |processPPScalibration pps_count ppm error_ppm true false| < 1000) := by
  constructor
  · intro h10
    unfold processPPScalibration
    rw [if_pos ⟨by omega, rfl, rfl⟩, if_pos hacc, if_neg (by omega)]
    exact abs_clampOscillatorCalibration_le _
  · intro h1 h10
    unfold processPPScalibration
    rw [if_pos ⟨h1, rfl, rfl⟩, if_pos hacc, if_pos h10]
    exact ⟨rfl, by rwa [abs_neg]⟩

/-- Witness for C2 (amended) at `pps_count = 12` and `pps_count = 5`,
both with measured error 500 ppm. -/
theorem ppm_clamp_amended_witness :
    |(500 : ℚ)| < 1000 ∧
    |processPPScalibration 12 0 500 true false| ≤ 200 ∧
    processPPScalibration 5 0 500 true false = -500 :=
  ⟨by norm_num,
   (ppm_clamp_amended 12 0 500 (by norm_num)).1 (by norm_num),
   ((ppm_clamp_amended 5 0 500 (by norm_num)).2 (by norm_num) (by norm_num)).1⟩

/-- C3 counterexample: a backward jump of the raw counter that is neither
a detected wrap (not `> 10^9`) nor handled elsewhere — here the counter
resets from 900000 to 0 — makes two successive `getVirtualMicros` calls
return strictly decreasing values. -/
theorem virtual_micros_monotone_counterexample :
    (getVirtualMicros (getVirtualMicros ⟨0, 0, 0⟩ 900000).2 0).1 <
      (getVirtualMicros ⟨0, 0, 0⟩ 900000).1 := by decide

/-- C3 amended: every `getVirtualMicros` value equals
`virtual_micros_offset + raw_micros` after anomaly handling; and two
successive calls are non-decreasing provided the second raw reading does
not go backward, or goes backward by more than `10^9` µs (the late-wrap
case the function absorbs).  A smaller backward jump — an undetected
clock reset — can strictly decrease the value, as the counterexample
shows. -/
theorem virtual_micros_amended (vc : VirtualClock) (r1 r2 : ℕ)
    (h1 : r1 < 4294967296)
    (h : r1 ≤ r2 ∨ 1000000000 < r1 - r2) :
    (∀ (w : VirtualClock) (raw : ℕ),
      (getVirtualMicros w raw).1 =
        (getVirtualMicros w raw).2.virtual_micros_offset + raw) ∧
    (getVirtualMicros vc r1).1 ≤
      (getVirtualMicros (getVirtualMicros vc r1).2 r2).1 := by
  have hval : ∀ (w : VirtualClock) (raw : ℕ),
      (getVirtualMicros w raw).1 =
        (getVirtualMicros w raw).2.virtual_micros_offset + raw := by
    intro w raw
    unfold getVirtualMicros
    split <;> rfl
  have hlast : ∀ (w : VirtualClock) (raw : ℕ),
      (getVirtualMicros w raw).2.last_micros = raw := by
    intro w raw
    unfold getVirtualMicros
    split <;> rfl
  have hwrap : ∀ (w : VirtualClock) (raw : ℕ),
      raw < w.last_micros → 1000000000 < w.last_micros - raw →
      (getVirtualMicros w raw).2.virtual_micros_offset =
        w.virtual_micros_offset + 4294967296 := by
    intro w raw ha hb
    unfold getVirtualMicros
    rw [if_pos ⟨ha, hb⟩]
  have hkeep : ∀ (w : VirtualClock) (raw : ℕ), w.last_micros ≤ raw →
      (getVirtualMicros w raw).2.virtual_micros_offset =
        w.virtual_micros_offset := by
    intro w raw ha
    unfold getVirtualMicros
    rw [if_neg (by omega)]
  refine ⟨hval, ?_⟩
  rw [hval vc r1, hval (getVirtualMicros vc r1).2 r2]
  rcases h with h | h
  · rw [hkeep (getVirtualMicros vc r1).2 r2 (by rw [hlast]; exact h)]
    omega
  · have hlt : r2 < (getVirtualMicros vc r1).2.last_micros := by
      rw [hlast]; omega
    have hjump : 1000000000 < (getVirtualMicros vc r1).2.last_micros - r2 := by
      rw [hlast]; omega
    rw [hwrap (getVirtualMicros vc r1).2 r2 hlt hjump]
    omega

/-- Witness for C3 (amended): a late wrap of more than `10^9` µs
(4294000000 down to 100) keeps the returned values non-decreasing. -/
theorem virtual_micros_amended_witness :
    (4294000000 : ℕ) < 4294967296 ∧
    (getVirtualMicros ⟨0, 0, 0⟩ 4294000000).1 ≤
      (getVirtualMicros (getVirtualMicros ⟨0, 0, 0⟩ 4294000000).2 100).1 :=
  ⟨by norm_num,
   (virtual_micros_amended ⟨0, 0, 0⟩ 4294000000 100 (by norm_num)
     (Or.inr (by norm_num))).2⟩

/-- C9 counterexample: `establishSamplingTiming` does not write
`phase_acc_us`; establishing with a residual accumulator of `1/2` µs
leaves it at `1/2`, not 0 as the claim states. -/
theorem establish_phase_acc_counterexample :
    (establishSamplingTiming 12345 10000
        ⟨0, 0, false, 0, 7, 0, 0, (1/2 : ℚ)⟩).phase_acc_us = 1/2 ∧
    ((1/2 : ℚ) ≠ 0) :=
  ⟨rfl, by norm_num⟩

/-- C9 amended: after `establishSamplingTiming`, the timing base equals
the next multiple of the sample interval strictly above the current
virtual time, `next_sample` equals that base and `sample_index` is 0;
`phase_acc_us` is not written and keeps its prior value. -/
theorem establish_amended (now interval : ℕ) (s : EstablishState)
    (hI : 0 < interval) :
    (establishSamplingTiming now interval s).timing_base_micros =
      (now / interval + 1) * interval ∧
    interval ∣ (establishSamplingTiming now interval s).timing_base_micros ∧
    now < (establishSamplingTiming now interval s).timing_base_micros ∧
    (establishSamplingTiming now interval s).timing_base_micros ≤ now + interval ∧
    (establishSamplingTiming now interval s).next_sample_micros =
      (establishSamplingTiming now interval s).timing_base_micros ∧
    (establishSamplingTiming now interval s).sample_index = 0 ∧
    (establishSamplingTiming now interval s).phase_acc_us = s.phase_acc_us := by
  have hdm : now / interval * interval + now % interval = now :=
    Nat.div_add_mod' now interval
  have hml : now % interval < interval := Nat.mod_lt now hI
  have hbase : (establishSamplingTiming now interval s).timing_base_micros =
      (now / interval + 1) * interval := by
    show now + (interval - now % interval) = (now / interval + 1) * interval
    rw [Nat.add_mul, Nat.one_mul]
    omega
  refine ⟨hbase, ⟨now / interval + 1, by rw [hbase, Nat.mul_comm]⟩, ?_, ?_, rfl, rfl, rfl⟩
  · rw [hbase, Nat.add_mul, Nat.one_mul]; omega
  · rw [hbase, Nat.add_mul, Nat.one_mul]; omega

/-- Witness for C9 (amended) at `now = 12345`, `interval = 10000`:
the base snaps to 20000. -/
theorem establish_amended_witness :
    (0 : ℕ) < 10000 ∧
    (establishSamplingTiming 12345 10000
        ⟨0, 0, false, 0, 0, 0, 0, 0⟩).timing_base_micros =
      (12345 / 10000 + 1) * 10000 :=
  ⟨by norm_num,
   (establish_amended 12345 10000 ⟨0, 0, false, 0, 0, 0, 0, 0⟩ (by norm_num)).1⟩

/-- C1 counterexample: running one stream for `reference_update_interval`
emissions reaches the periodic rebase, which zeroes `sample_index` while
the 16-bit `sequence` keeps counting: the rebase emission carries
`seq = 1000000 % 65536 = 16960` but `sample_index = 0`. -/
theorem seq_index_rebase_counterexample :
    emittedPair (stateAt 1000000) = (16960, 0) ∧ (16960 : ℕ) ≠ 0 % 65536 := by
  constructor
  · rw [stateAt_eq_of_le 1000000 (le_refl _)]
    unfold emittedPair referenceUpdateInterval
    norm_num
  · decide

/-- C1 amended: at every emission strictly before the first
timing-reference rebase (and absent clock resets), the emitted 16-bit
sequence number equals `sample_index mod 65536`; the rebase at emission
`reference_update_interval` zeroes `sample_index` while `sequence`
continues, after which the equality fails. -/
theorem seq_matches_index_before_rebase (n : ℕ)
    (h : n < referenceUpdateInterval) :
    (emittedPair (stateAt n)).1 = (emittedPair (stateAt n)).2 % 65536 := by
  rw [stateAt_eq_of_le n (Nat.le_of_lt h)]
  simp only [emittedPair]
  rw [if_neg (by omega)]

/-- Witness for C1 (amended) at the 5th emission. -/
theorem seq_matches_index_before_rebase_witness :
    5 < referenceUpdateInterval ∧
    (emittedPair (stateAt 5)).1 = (emittedPair (stateAt 5)).2 % 65536 :=
  ⟨by norm_num [referenceUpdateInterval],
   seq_matches_index_before_rebase 5 (by norm_num [referenceUpdateInterval])⟩

/-- C6: the scheduler fires at most one sample per main-loop iteration;
and when the loop reaches the scheduler `d` µs past the due time with an
integer effective interval `I` (the nominal case, e.g. zero calibration),
no phase adjustment active, the fractional accumulator in `[0, 1)` and
the stall not an exact multiple of the interval, exactly one sample
fires, `next_sample` advances by `⌈d / I⌉` intervals (no catch-up burst:
the new `next_sample` is strictly in the future) and the accumulator is
unchanged. -/
theorem scheduler_single_fire_no_burst (I d : ℕ) (s : Scheduler)
    (hI : 1 ≤ I) (hadj : s.phase_alignment_active = false)
    (hacc0 : 0 ≤ s.phase_acc_us) (hacc1 : s.phase_acc_us < 1)
    (hnd : ¬ I ∣ d) :
    (∀ (e : ℚ) (t : Scheduler) (n : ℕ), (schedStep e t n).2 ≤ 1) ∧
    (schedStep (I : ℚ) s (s.next_sample_micros + d)).2 = 1 ∧
    (schedStep (I : ℚ) s (s.next_sample_micros + d)).1.next_sample_micros =
      s.next_sample_micros + (d / I + 1) * I ∧
    d / I + 1 = Nat.ceil ((d : ℚ) / (I : ℚ)) ∧
    s.next_sample_micros + d <
      (schedStep (I : ℚ) s (s.next_sample_micros + d)).1.next_sample_micros ∧
    (schedStep (I : ℚ) s (s.next_sample_micros + d)).1.phase_acc_us =
      s.phase_acc_us := by
  have hfire : ∀ (e : ℚ) (t : Scheduler) (n : ℕ), (schedStep e t n).2 ≤ 1 := by
    intro e t n
    unfold schedStep
    split <;> simp
  have hIpos : (0 : ℚ) < (I : ℚ) := by exact_mod_cast hI
  have hmod : d % I ≠ 0 := fun hm => hnd (Nat.dvd_of_mod_eq_zero hm)
  have hdm : d / I * I + d % I = d := Nat.div_add_mod' d I
  have hml : d % I < I := Nat.mod_lt d hI
  have hlt : d < (d / I + 1) * I := by
    rw [Nat.add_mul, Nat.one_mul]; omega
  have htr : (cTrunc ((I : ℕ) : ℚ)).toNat = I := by
    unfold cTrunc
    rw [if_pos (le_of_lt hIpos), Int.floor_natCast]
    exact Int.toNat_natCast I
  have hfl0 : ⌊s.phase_acc_us⌋ = 0 := by
    rw [Int.floor_eq_zero_iff]
    exact Set.mem_Ico.mpr ⟨hacc0, hacc1⟩
  have hwhole : cTrunc ((I : ℚ) + s.phase_acc_us) = (I : ℤ) := by
    unfold cTrunc
    rw [if_pos (by linarith), add_comm, Int.floor_add_nat, hfl0, zero_add]
  have heval : schedStep (I : ℚ) s (s.next_sample_micros + d) =
      ({ s with next_sample_micros := s.next_sample_micros + (d / I + 1) * I },
        1) := by
    unfold schedStep
    rw [if_pos (Nat.le_add_right _ _), hadj]
    simp only [Nat.add_sub_cancel_left, htr, Bool.false_and, if_neg Bool.false_ne_true,
      add_zero, hwhole]
    simp only [Prod.mk.injEq, Scheduler.mk.injEq]
    refine ⟨⟨?_, ?_, trivial, trivial, trivial, trivial⟩, trivial⟩
    · rw [Nat.add_mul, Nat.one_mul]
      omega
    · push_cast
      ring
  have hceil : d / I + 1 = Nat.ceil ((d : ℚ) / (I : ℚ)) := by
    rw [eq_comm, Nat.ceil_eq_iff (Nat.succ_ne_zero (d / I))]
    constructor
    · show ((d / I + 1 - 1 : ℕ) : ℚ) < (d : ℚ) / (I : ℚ)
      rw [Nat.add_sub_cancel, lt_div_iff₀ hIpos]
      exact_mod_cast (by omega : d / I * I < d)
    · rw [div_le_iff₀ hIpos]
      exact_mod_cast hlt.le
  refine ⟨hfire, ?_, ?_, hceil, ?_, ?_⟩
  · rw [heval]
  · rw [heval]
  · rw [heval]
    show s.next_sample_micros + d < s.next_sample_micros + (d / I + 1) * I
    omega
  · rw [heval]

/-- Branch evaluation of an attempted emission: TX space below 20 bytes
and the OFLOW rate limit open yield an `OFLOW` line in place of the
sample. -/
theorem outputData_eval_oflow (m : SerialBufferMonitor) (tx now : ℕ)
    (h1 : tx < 20)
    (h2 : m.oflow_report_interval_ms ≤ now - m.last_oflow_message_time) :
    outputDataWithOverflowProtection m tx now =
      ({ m with
         buffer_overflows := m.buffer_overflows + 1,
         last_overflow_time := now,
         overflow_warning_sent := true,
         samples_skipped_due_to_overflow := m.samples_skipped_due_to_overflow + 1,
         oflow_message_count := m.oflow_message_count + 1,
         last_oflow_message_time := now }, EmitOutcome.oflow) := by
  unfold outputDataWithOverflowProtection checkSerialBufferOverflow
  rw [if_pos h1]
  dsimp only
  rw [if_pos h2, if_pos rfl]

/-- Branch evaluation of an attempted emission: TX space below 20 bytes
inside the OFLOW rate limit drops the sample silently. -/
theorem outputData_eval_dropped (m : SerialBufferMonitor) (tx now : ℕ)
    (h1 : tx < 20)
    (h2 : ¬ m.oflow_report_interval_ms ≤ now - m.last_oflow_message_time) :
    outputDataWithOverflowProtection m tx now =
      ({ m with
         buffer_overflows := m.buffer_overflows + 1,
         last_overflow_time := now,
         overflow_warning_sent := true,
         samples_skipped_due_to_overflow := m.samples_skipped_due_to_overflow + 1 },
        EmitOutcome.droppedSilent) := by
  unfold outputDataWithOverflowProtection checkSerialBufferOverflow
  rw [if_pos h1]
  dsimp only
  rw [if_neg h2, if_pos rfl]

/-- Branch evaluation of an attempted emission: more than 50 bytes of TX
space emits the sample and rearms the one-shot overflow warning. -/
theorem outputData_eval_rearm (m : SerialBufferMonitor) (tx now : ℕ)
    (h1 : ¬ tx < 20) (h3 : 50 < tx) :
    outputDataWithOverflowProtection m tx now =
      ({ m with overflow_warning_sent := false }, EmitOutcome.sample) := by
  unfold outputDataWithOverflowProtection checkSerialBufferOverflow
  rw [if_neg h1, if_pos h3]
  dsimp only
  rw [if_neg Bool.false_ne_true]

/-- Branch evaluation of an attempted emission: TX space in `[20, 50]`
emits the sample and leaves the monitor unchanged. -/
theorem outputData_eval_plain (m : SerialBufferMonitor) (tx now : ℕ)
    (h1 : ¬ tx < 20) (h3 : ¬ 50 < tx) :
    outputDataWithOverflowProtection m tx now = (m, EmitOutcome.sample) := by
  unfold outputDataWithOverflowProtection checkSerialBufferOverflow
  rw [if_neg h1, if_neg h3]
  dsimp only
  rw [if_neg Bool.false_ne_true]

/-- Every `OFLOW` time in a run is at least one report interval after the
`last_oflow_message_time` of the starting monitor state. -/
theorem oflowTimes_lower (l : List (ℕ × ℕ)) :
    ∀ (m : SerialBufferMonitor), 1 ≤ m.oflow_report_interval_ms →
    ∀ x ∈ oflowTimes (runOutput m l),
      m.last_oflow_message_time + m.oflow_report_interval_ms ≤ x := by
  induction l with
  | nil => intro m hR x hx; simp [runOutput, oflowTimes] at hx
  | cons p rest ih =>
    obtain ⟨tx, t⟩ := p
    intro m hR x hx
    simp only [runOutput] at hx
    by_cases h1 : tx < 20
    · by_cases h2 : m.oflow_report_interval_ms ≤ t - m.last_oflow_message_time
      · rw [outputData_eval_oflow m tx t h1 h2] at hx
        simp only [oflowTimes, List.mem_cons] at hx
        rcases hx with hx | hx
        · omega
        · have hb : t + m.oflow_report_interval_ms ≤ x :=
            ih { m with
                buffer_overflows := m.buffer_overflows + 1,
                last_overflow_time := t,
                overflow_warning_sent := true,
                samples_skipped_due_to_overflow :=
                  m.samples_skipped_due_to_overflow + 1,
                oflow_message_count := m.oflow_message_count + 1,
                last_oflow_message_time := t } hR x hx
          omega
      · rw [outputData_eval_dropped m tx t h1 h2] at hx
        simp only [oflowTimes] at hx
        exact ih { m with
            buffer_overflows := m.buffer_overflows + 1,
            last_overflow_time := t,
            overflow_warning_sent := true,
            samples_skipped_due_to_overflow :=
              m.samples_skipped_due_to_overflow + 1 } hR x hx
    · by_cases h3 : 50 < tx
      · rw [outputData_eval_rearm m tx t h1 h3] at hx
        simp only [oflowTimes] at hx
        exact ih { m with overflow_warning_sent := false } hR x hx
      · rw [outputData_eval_plain m tx t h1 h3] at hx
        simp only [oflowTimes] at hx
        exact ih m hR x hx

/-- Consecutive `OFLOW` lines in any run are separated by at least one
report interval. -/
theorem oflowTimes_chain (l : List (ℕ × ℕ)) :
    ∀ (m : SerialBufferMonitor), 1 ≤ m.oflow_report_interval_ms →
    List.Chain' (fun a b => a + m.oflow_report_interval_ms ≤ b)
      (oflowTimes (runOutput m l)) := by
  induction l with
  | nil => intro m hR; simp [runOutput, oflowTimes]
  | cons p rest ih =>
    obtain ⟨tx, t⟩ := p
    intro m hR
    simp only [runOutput]
    by_cases h1 : tx < 20
    · by_cases h2 : m.oflow_report_interval_ms ≤ t - m.last_oflow_message_time
      · rw [outputData_eval_oflow m tx t h1 h2]
        simp only [oflowTimes]
        rw [List.chain'_cons']
        constructor
        · intro y hy
          have hb : t + m.oflow_report_interval_ms ≤ y :=
            oflowTimes_lower rest { m with
                buffer_overflows := m.buffer_overflows + 1,
                last_overflow_time := t,
                overflow_warning_sent := true,
                samples_skipped_due_to_overflow :=
                  m.samples_skipped_due_to_overflow + 1,
                oflow_message_count := m.oflow_message_count + 1,
                last_oflow_message_time := t } hR y (List.mem_of_mem_head? hy)
          omega
        · exact ih { m with
              buffer_overflows := m.buffer_overflows + 1,
              last_overflow_time := t,
              overflow_warning_sent := true,
              samples_skipped_due_to_overflow :=
                m.samples_skipped_due_to_overflow + 1,
              oflow_message_count := m.oflow_message_count + 1,
              last_oflow_message_time := t } hR
      · rw [outputData_eval_dropped m tx t h1 h2]
        simp only [oflowTimes]
        exact ih { m with
            buffer_overflows := m.buffer_overflows + 1,
            last_overflow_time := t,
            overflow_warning_sent := true,
            samples_skipped_due_to_overflow :=
              m.samples_skipped_due_to_overflow + 1 } hR
    · by_cases h3 : 50 < tx
      · rw [outputData_eval_rearm m tx t h1 h3]
        simp only [oflowTimes]
        exact ih { m with overflow_warning_sent := false } hR
      · rw [outputData_eval_plain m tx t h1 h3]
        simp only [oflowTimes]
        exact ih m hR

/-- C7: on every attempted emission the sample is dropped exactly when
`tx_available()` is below 20 bytes, in which case the overflow and
skipped-sample counters increment; an `OFLOW` line replaces the sample at
most once per configured second (in any run, consecutive `OFLOW` lines
are at least 1000 ms apart); and whenever `tx_available()` exceeds
50 bytes the one-shot overflow warning is rearmed. -/
theorem backpressure_drop_and_oflow_rate_limit (m : SerialBufferMonitor)
    (tx now : ℕ) (l : List (ℕ × ℕ))
    (hR : m.oflow_report_interval_ms = 1000) :
    ((outputDataWithOverflowProtection m tx now).2 ≠ EmitOutcome.sample ↔
      tx < 20) ∧
    (tx < 20 →
      (outputDataWithOverflowProtection m tx now).1.buffer_overflows =
        m.buffer_overflows + 1 ∧
      (outputDataWithOverflowProtection m tx now).1.samples_skipped_due_to_overflow =
        m.samples_skipped_due_to_overflow + 1) ∧
    (50 < tx →
      (outputDataWithOverflowProtection m tx now).1.overflow_warning_sent =
        false) ∧
    List.Chain' (fun a b => a + 1000 ≤ b) (oflowTimes (runOutput m l)) := by
  have hchain := oflowTimes_chain l m (by omega)
  rw [hR] at hchain
  by_cases h1 : tx < 20
  · by_cases h2 : m.oflow_report_interval_ms ≤ now - m.last_oflow_message_time
    · rw [outputData_eval_oflow m tx now h1 h2]
      refine ⟨by simp [h1], fun _ => ⟨rfl, rfl⟩, fun h50 => absurd h50 (by omega), hchain⟩
    · rw [outputData_eval_dropped m tx now h1 h2]
      refine ⟨by simp [h1], fun _ => ⟨rfl, rfl⟩, fun h50 => absurd h50 (by omega), hchain⟩
  · by_cases h3 : 50 < tx
    · rw [outputData_eval_rearm m tx now h1 h3]
      refine ⟨by simp [h1], fun h => absurd h h1, fun _ => rfl, hchain⟩
    · rw [outputData_eval_plain m tx now h1 h3]
      refine ⟨by simp [h1], fun h => absurd h h1, fun h50 => absurd h50 h3, hchain⟩

/-- Witness for C7: a starved TX buffer (10 bytes free) drops the sample,
and a concrete run emits its `OFLOW` lines at least 1000 ms apart. -/
theorem backpressure_drop_and_oflow_rate_limit_witness :
    ((outputDataWithOverflowProtection ⟨0, 0, 0, false, 0, 0, 1000⟩ 10 0).2 ≠
        EmitOutcome.sample ↔ (10 : ℕ) < 20) ∧
    List.Chain' (fun a b => a + 1000 ≤ b)
      (oflowTimes (runOutput ⟨0, 0, 0, false, 0, 0, 1000⟩
        [(10, 0), (10, 400), (10, 1500), (60, 1600), (10, 2600)])) :=
  ⟨(backpressure_drop_and_oflow_rate_limit ⟨0, 0, 0, false, 0, 0, 1000⟩ 10 0
      [(10, 0), (10, 400), (10, 1500), (60, 1600), (10, 2600)] rfl).1,
   (backpressure_drop_and_oflow_rate_limit ⟨0, 0, 0, false, 0, 0, 1000⟩ 10 0
      [(10, 0), (10, 400), (10, 1500), (60, 1600), (10, 2600)] rfl).2.2.2⟩

/-- Witness for C6: a stall of 25000 µs at a 10000 µs effective interval
fires one sample and advances `next_sample` by 3 intervals. -/
theorem scheduler_single_fire_no_burst_witness :
    (schedStep (10000 : ℚ) ⟨0, 0, false, 0, 0, 0⟩ 25000).2 = 1 ∧
    (schedStep (10000 : ℚ) ⟨0, 0, false, 0, 0, 0⟩ 25000).1.next_sample_micros =
      0 + (25000 / 10000 + 1) * 10000 :=
  ⟨(scheduler_single_fire_no_burst 10000 25000 ⟨0, 0, false, 0, 0, 0⟩
      (by norm_num) rfl (le_refl 0) (by norm_num) (by decide)).2.1,
   (scheduler_single_fire_no_burst 10000 25000 ⟨0, 0, false, 0, 0, 0⟩
      (by norm_num) rfl (le_refl 0) (by norm_num) (by decide)).2.2.1⟩

/-- C4: evaluation of `processPPS` at the failing input.  From the armed
state of `START_STREAM_PPS 100,2` (countdown 2), a single PPS edge with
good cadence and no reset already establishes streaming: the handler
contains two countdown blocks (main.cpp:673-692 and main.cpp:865-880),
so each edge decrements `pps_countdown` twice — streaming starts on the
1st edge instead of the 2nd.  Moreover the scheduler base is set to the
raw `pps_micros` (main.cpp:868), not the PPS edge in virtual time
(`virtual_micros_offset + pps_micros`). -/
theorem pps_locked_start_double_decrement :
    (processPPS armedTwoPps 5000500 5000).streaming = true ∧
    (processPPS armedTwoPps 5000500 5000).timing_established = true ∧
    (processPPS armedTwoPps 5000500 5000).pps_countdown = 0 ∧
    (processPPS armedTwoPps 5000500 5000).timing_base_micros = 5000500 ∧
    armedTwoPps.virtual_micros_offset + 5000500 ≠ 5000500 := by
  refine ⟨?_, ?_, ?_, ?_, ?_⟩ <;> decide

end GVsense
